import Mathlib

/-!
Verification of the victor-devops pipeline core: the gate/verdict evaluator
(`victor_devops/escape_hatches.py`), the command-synthesis handlers
(`victor_devops/handlers.py`), and the capability config store
(`victor_devops/capabilities.py`), shallowly embedded in Lean.

Python values in the workflow context are json-like; we model them with the
`Value` type below.  Python floats are modelled as exact rationals (no gate
relies on rounding).  Operations that can raise in Python (`.get` on a
non-dict, ordering comparisons on mixed types, `len` on a number, ...) are
modelled in the `Except PyErr` monad; exception identity is modelled by kind
only (the gates never inspect exception messages).
-/

namespace VictorDevops

/-- A json-like Python value as stored in a `WorkflowContext`. -/
inductive Value where
  | none : Value
  | bool : Bool → Value
  | num : ℚ → Value
  | str : String → Value
  | list : List Value → Value
  | dict : List (String × Value) → Value
deriving Repr

/-- A workflow context: a Python dict from string keys to values. -/
abbrev Ctx := List (String × Value)

/-- Kinds of Python exception the embedded code can raise. -/
inductive PyErr where
  | typeError : PyErr
  | attributeError : PyErr
deriving Repr, DecidableEq

/-- First-match lookup in an association list representing a Python dict
(dicts have unique keys, so first match is the match). -/
def dictLookup (kvs : List (String × Value)) (k : String) : Option Value :=
  match kvs with
  | [] => Option.none
  | (k2, v) :: rest => if k2 = k then Option.some v else dictLookup rest k

/-- Python `ctx.get(key, default)` on a context that is known to be a dict:
total. -/
def ctxGet (ctx : Ctx) (k : String) (dflt : Value) : Value :=
  (dictLookup ctx k).getD dflt

/-- Python `v.get(key, default)` on an arbitrary value: only dicts have
`.get`; anything else raises `AttributeError`. -/
def pyGetAttr (v : Value) (k : String) (dflt : Value) : Except PyErr Value :=
  match v with
  | .dict kvs => .ok ((dictLookup kvs k).getD dflt)
  | _ => .error .attributeError

/-- Python truthiness (`bool(v)`): total on every value. -/
def pyTruthy : Value → Bool
  | .none => false
  | .bool b => b
  | .num q => if q = 0 then false else true
  | .str s => if s = "" then false else true
  | .list vs => !vs.isEmpty
  | .dict kvs => !kvs.isEmpty

/-- Python `v == lit` against a string literal: total; only a string can
equal a string. -/
def pyEqStr (v : Value) (lit : String) : Bool :=
  match v with
  | .str s => s = lit
  | _ => false

/-- Python `v in lits` for a list of string literals: total. -/
def pyInStrList (v : Value) (lits : List String) : Bool :=
  match v with
  | .str s => lits.contains s
  | _ => false

/-- Numeric view of a value for arithmetic/ordering: Python treats `bool`
as an int (True == 1). -/
def pyNum : Value → Option ℚ
  | .bool b => Option.some (if b then 1 else 0)
  | .num q => Option.some q
  | _ => Option.none

/-- Python `a > b`: defined on numbers (bools count as numbers) and on
string pairs (lexicographic); anything else raises `TypeError`.
Container comparisons are not modelled: no gate compares containers. -/
def pyGt (a b : Value) : Except PyErr Bool :=
  match pyNum a, pyNum b with
  | Option.some x, Option.some y => .ok (decide (y < x))
  | _, _ =>
    match a, b with
    | .str s, .str t => .ok (decide (t < s))
    | _, _ => .error .typeError

/-- Python `a < b` (same domain as `pyGt`). -/
def pyLt (a b : Value) : Except PyErr Bool :=
  match pyNum a, pyNum b with
  | Option.some x, Option.some y => .ok (decide (x < y))
  | _, _ =>
    match a, b with
    | .str s, .str t => .ok (decide (s < t))
    | _, _ => .error .typeError

/-- Python `a >= b` (same domain as `pyGt`). -/
def pyGe (a b : Value) : Except PyErr Bool :=
  match pyNum a, pyNum b with
  | Option.some x, Option.some y => .ok (decide (y ≤ x))
  | _, _ =>
    match a, b with
    | .str s, .str t => .ok (decide (t < s ∨ t = s))
    | _, _ => .error .typeError

/-- Python `a + b`: numbers add, strings and lists concatenate, anything
else raises `TypeError`. -/
def pyAdd (a b : Value) : Except PyErr Value :=
  match pyNum a, pyNum b with
  | Option.some x, Option.some y => .ok (.num (x + y))
  | _, _ =>
    match a, b with
    | .str s, .str t => .ok (.str (s ++ t))
    | .list xs, .list ys => .ok (.list (xs ++ ys))
    | _, _ => .error .typeError

/-- Python `len(v)`: strings, lists and dicts have a length; numbers,
bools and None raise `TypeError`. -/
def pyLen : Value → Except PyErr Nat
  | .str s => .ok s.length
  | .list vs => .ok vs.length
  | .dict kvs => .ok kvs.length
  | _ => .error .typeError

/-- Python `v.values()`: only dicts have `.values`; anything else raises
`AttributeError`. -/
def pyValues : Value → Except PyErr (List Value)
  | .dict kvs => .ok (kvs.map Prod.snd)
  | _ => .error .attributeError

/-! ## Gate evaluator (`victor_devops/escape_hatches.py`)

Each gate takes the workflow context and returns a verdict string, or a
`PyErr` where the Python original would raise.  Matches mirror the Python
statements in order, including short-circuit evaluation of `and` / `or`. -/

/-- `deployment_ready` (escape_hatches.py lines 43-78). -/
def deployment_ready (ctx : Ctx) : Except PyErr String :=
  let config_valid := ctxGet ctx "config_valid" (.bool false)
  let dependencies_met := ctxGet ctx "dependencies_met" (.bool false)
  let approval_status := ctxGet ctx "approval_status" (.str "pending")
  let environment := ctxGet ctx "environment" (.str "development")
  if !pyTruthy config_valid then .ok "failed"
  else if !pyTruthy dependencies_met then .ok "blocked"
  else if pyEqStr environment "production" && !pyEqStr approval_status "approved" then .ok "blocked"
  else if pyEqStr approval_status "rejected" then .ok "failed"
  else .ok "ready"

/-- `sum(1 for r in results.values() if r.get("status") == "healthy")`:
left-to-right, raising at the first entry without `.get`. -/
def countHealthy : List Value → Except PyErr Nat
  | [] => .ok 0
  | r :: rs =>
    match pyGetAttr r "status" Value.none with
    | .error e => .error e
    | .ok s =>
      match countHealthy rs with
      | .error e => .error e
      | .ok n => .ok ((if pyEqStr s "healthy" then 1 else 0) + n)

/-- `health_check_status` (escape_hatches.py lines 81-107). -/
def health_check_status (ctx : Ctx) : Except PyErr String :=
  let results := ctxGet ctx "health_results" (.dict [])
  let min_healthy := ctxGet ctx "min_healthy_pct" (.num (8/10))
  if !pyTruthy results then .ok "unhealthy"
  else
    match pyLen results with
    | .error e => .error e
    | .ok total =>
      match pyValues results with
      | .error e => .error e
      | .ok vals =>
        match countHealthy vals with
        | .error e => .error e
        | .ok healthy =>
          let healthy_pct : ℚ := if 0 < total then (healthy : ℚ) / (total : ℚ) else 0
          if 1 ≤ healthy_pct then .ok "healthy"
          else
            match pyGe (.num healthy_pct) min_healthy with
            | .error e => .error e
            | .ok b => if b then .ok "degraded" else .ok "unhealthy"

/-- `rollback_needed` (escape_hatches.py lines 110-140). -/
def rollback_needed (ctx : Ctx) : Except PyErr String :=
  let deploy_result := ctxGet ctx "deploy_result" (.dict [])
  let health_status := ctxGet ctx "health_status" (.str "unknown")
  let error_rate := ctxGet ctx "error_rate" (.num 0)
  match pyGetAttr deploy_result "success" (.bool false) with
  | .error e => .error e
  | .ok success =>
    if !pyTruthy success then .ok "rollback"
    else if pyEqStr health_status "unhealthy" then .ok "rollback"
    else
      match pyGt error_rate (.num (1/10)) with
      | .error e => .error e
      | .ok b =>
        if b then .ok "rollback"
        else if pyEqStr health_status "degraded" then .ok "monitor"
        else
          match pyGt error_rate (.num (1/100)) with
          | .error e => .error e
          | .ok b2 => if b2 then .ok "monitor" else .ok "stable"

/-- `container_build_status` (escape_hatches.py lines 143-166). -/
def container_build_status (ctx : Ctx) : Except PyErr String :=
  let build_result := ctxGet ctx "build_result" (.dict [])
  let image_size := ctxGet ctx "image_size" (.num 0)
  let max_size := ctxGet ctx "max_size" (.num 2000)
  match pyGetAttr build_result "success" (.bool false) with
  | .error e => .error e
  | .ok success =>
    if !pyTruthy success then .ok "failed"
    else
      match pyGt image_size max_size with
      | .error e => .error e
      | .ok b => if b then .ok "warning" else .ok "success"

/-- `infrastructure_drift` (escape_hatches.py lines 169-201). -/
def infrastructure_drift (ctx : Ctx) : Except PyErr String :=
  let changes := ctxGet ctx "plan_changes" (.dict [])
  if !pyTruthy changes then .ok "no_drift"
  else
    match pyGetAttr changes "create" (.num 0) with
    | .error e => .error e
    | .ok create_count =>
      match pyGetAttr changes "update" (.num 0) with
      | .error e => .error e
      | .ok update_count =>
        match pyGetAttr changes "destroy" (.num 0) with
        | .error e => .error e
        | .ok destroy_count =>
          match pyGt destroy_count (.num 0) with
          | .error e => .error e
          | .ok bd =>
            if bd then .ok "destructive"
            else
              match pyAdd create_count update_count with
              | .error e => .error e
              | .ok total_changes =>
                match pyGt total_changes (.num 10) with
                | .error e => .error e
                | .ok bmaj =>
                  if bmaj then .ok "major_drift"
                  else
                    match pyGt total_changes (.num 0) with
                    | .error e => .error e
                    | .ok bmin => if bmin then .ok "minor_drift" else .ok "no_drift"

/-- The ordered severity list of `security_scan_verdict`. -/
def severity_levels : List String := ["info", "low", "medium", "high", "critical"]

/-- `severity_levels.index(threshold) if threshold in severity_levels else 3`. -/
def thresholdIdx (threshold : Value) : Nat :=
  if pyInStrList threshold severity_levels then
    match threshold with
    | .str s => severity_levels.indexOf s
    | _ => 3
  else 3

/-- `security_scan_verdict` (escape_hatches.py lines 204-234). -/
def security_scan_verdict (ctx : Ctx) : Except PyErr String :=
  let results := ctxGet ctx "scan_results" (.dict [])
  let threshold := ctxGet ctx "severity_threshold" (.str "high")
  let threshold_idx := thresholdIdx threshold
  match pyGetAttr results "critical" (.num 0) with
  | .error e => .error e
  | .ok critical =>
    match pyGetAttr results "high" (.num 0) with
    | .error e => .error e
    | .ok high =>
      match pyGetAttr results "medium" (.num 0) with
      | .error e => .error e
      | .ok medium =>
        match pyGt critical (.num 0) with
        | .error e => .error e
        | .ok bc =>
          if bc then .ok "fail"
          else
            match pyGt high (.num 0) with
            | .error e => .error e
            | .ok bh =>
              if bh && decide (threshold_idx ≤ severity_levels.indexOf "high") then .ok "fail"
              else
                match pyGt medium (.num 0) with
                | .error e => .error e
                | .ok bm =>
                  if bm && decide (threshold_idx ≤ severity_levels.indexOf "medium") then .ok "warn"
                  else .ok "pass"

/-- `pipeline_stage_gate` (escape_hatches.py lines 237-263). -/
def pipeline_stage_gate (ctx : Ctx) : Except PyErr String :=
  let results := ctxGet ctx "stage_results" (.dict [])
  let required_coverage := ctxGet ctx "required_coverage" (.num (8/10))
  let allow_failures := ctxGet ctx "allow_failures" (.bool false)
  match pyGetAttr results "tests_passed" (.bool false) with
  | .error e => .error e
  | .ok tests_passed =>
    match pyGetAttr results "coverage" (.num 0) with
    | .error e => .error e
    | .ok coverage =>
      if !pyTruthy tests_passed && !pyTruthy allow_failures then .ok "abort"
      else
        match pyLt coverage required_coverage with
        | .error e => .error e
        | .ok b => if b then .ok "abort" else .ok "proceed"

/-- `merge_deployment_results` (escape_hatches.py lines 271-298): the
transform that merges parallel deployment task results.  `docs_updated`
re-reads the docs success flag with a `False` default, unlike the `True`
default used inside `all_success`. -/
def merge_deployment_results (ctx : Ctx) : Except PyErr Value :=
  let monitoring_result := ctxGet ctx "monitoring_result" (.dict [])
  let notification_result := ctxGet ctx "notification_result" (.dict [])
  let docs_result := ctxGet ctx "docs_result" (.dict [])
  match pyGetAttr monitoring_result "success" (.bool false) with
  | .error e => .error e
  | .ok m =>
    match pyGetAttr notification_result "success" (.bool false) with
    | .error e => .error e
    | .ok n =>
      match pyGetAttr docs_result "success" (.bool true) with
      | .error e => .error e
      | .ok d =>
        let all_success := pyTruthy m && pyTruthy n && pyTruthy d
        match pyGetAttr docs_result "success" (.bool false) with
        | .error e => .error e
        | .ok d2 =>
          .ok (.dict
            [("all_tasks_complete", .bool true),
             ("all_tasks_success", .bool all_success),
             ("monitoring_updated", m),
             ("notification_sent", n),
             ("docs_updated", d2)])

/-! ## Command-synthesis handlers (`victor_devops/handlers.py`) -/

mutual

/-- Python `str(v)` as interpolated into an f-string.  Scalars are rendered
exactly; container rendering simplifies `repr` (string elements are not
quoted) — the handlers only ever interpolate scalar parameters. -/
def pyStr : Value → String
  | Value.none => "None"
  | Value.bool b => if b then "True" else "False"
  | Value.num q => if q.den = 1 then toString q.num else toString q
  | Value.str s => s
  | Value.list vs => "[" ++ pyStrElems vs ++ "]"
  | Value.dict kvs => "\x7b" ++ pyStrPairs kvs ++ "\x7d"

/-- Comma-joined rendering of list elements. -/
def pyStrElems : List Value → String
  | [] => ""
  | [v] => pyStr v
  | v :: rest => pyStr v ++ ", " ++ pyStrElems rest

/-- Comma-joined rendering of dict entries. -/
def pyStrPairs : List (String × Value) → String
  | [] => ""
  | [(k, v)] => k ++ ": " ++ pyStr v
  | (k, v) :: rest => k ++ ": " ++ pyStr v ++ ", " ++ pyStrPairs rest

end

/-- The `CommandResult` returned by the external command executor for one
command. -/
structure CommandResult where
  success : Bool
  output : Value := Value.none
  error : Option String := Option.none

/-- One invocation of the executor port either returns a `CommandResult`
or raises an exception (carried as its string representation). -/
inductive ExecOutcome where
  | result : CommandResult → ExecOutcome
  | raised : String → ExecOutcome

/-- `ExecutorNodeStatus` values the handlers use. -/
inductive NodeStatus where
  | completed : NodeStatus
  | failed : NodeStatus
deriving DecidableEq

/-- Modelled from the spec: `NodeResult` of the host workflow runtime
(`victor.workflows.executor`), which is not part of this repository's
sources.  Fields follow spec section 3; constructor arguments the handlers
omit default to `none` / `0`, as the repository's tests require for
partial `NodeResult` construction to succeed.  Wall-clock
`duration_seconds` is not modelled. -/
structure NodeResult where
  node_id : String
  status : NodeStatus
  output : Option Value := Option.none
  error : Option String := Option.none
  tool_calls_used : Nat := 0

/-- The node descriptor a handler receives: id, input-parameter map, and
optional output key. -/
structure ComputeNode where
  id : String
  input_mapping : List (String × Value)
  output_key : Option String := Option.none

/-- `node.output_key or node.id`: Python `or` falls through on falsy
values, so an absent or empty output key selects the node id. -/
def outKey (node : ComputeNode) : String :=
  match node.output_key with
  | Option.some s => if s = "" then node.id else s
  | Option.none => node.id

/-- `context.set(key, value)` of the workflow-context port: dict update
(replace the existing binding, or append a new one). -/
def ctxSet (ctx : Ctx) (k : String) (v : Value) : Ctx :=
  match ctx with
  | [] => [(k, v)]
  | (k2, v2) :: rest => if k2 = k then (k, v) :: rest else (k2, v2) :: ctxSet rest k v

/-- Everything one handler invocation produces: the `NodeResult` — or, in
the `.error` case, an exception that propagated out of the handler — plus
the final context and the command strings passed to the executor, in
order. -/
structure HandlerOutcome where
  result : Except String NodeResult
  ctx : Ctx
  calls : List String

/-- Command synthesis of `ContainerOpsHandler.__call__` (handlers.py lines
92-107): operation → command template; `none` for an unrecognized
operation. -/
def containerCmd (runtime : String) (node : ComputeNode) : Option String :=
  let operation := ctxGet node.input_mapping "operation" (.str "build")
  let dockerfile := ctxGet node.input_mapping "dockerfile" (.str "Dockerfile")
  let tag := ctxGet node.input_mapping "tag" (.str "latest")
  let image := ctxGet node.input_mapping "image" (.str "")
  if pyEqStr operation "build" then
    Option.some (runtime ++ " build -f " ++ pyStr dockerfile ++ " -t " ++ pyStr tag ++ " .")
  else if pyEqStr operation "push" then Option.some (runtime ++ " push " ++ pyStr tag)
  else if pyEqStr operation "pull" then Option.some (runtime ++ " pull " ++ pyStr image)
  else if pyEqStr operation "run" then Option.some (runtime ++ " run -d " ++ pyStr image)
  else if pyEqStr operation "stop" then
    Option.some (runtime ++ " stop " ++ pyStr (ctxGet node.input_mapping "container_id" (.str "")))
  else Option.none

/-- `ContainerOpsHandler.__call__` (handlers.py lines 82-143).  The single
executor call sits inside `try`, so a raised exception becomes a `Failed`
result; the unknown-operation branch returns before any executor call. -/
def containerCall (runtime : String) (node : ComputeNode) (ctx : Ctx)
    (exec : String → ExecOutcome) : HandlerOutcome :=
  let operation := ctxGet node.input_mapping "operation" (.str "build")
  match containerCmd runtime node with
  | Option.none =>
    let nr : NodeResult :=
      { node_id := node.id, status := .failed,
        error := Option.some ("Unknown operation: " ++ pyStr operation) }
    { result := .ok nr, ctx := ctx, calls := [] }
  | Option.some cmd =>
    match exec cmd with
    | .raised e =>
      let nr : NodeResult :=
        { node_id := node.id, status := .failed, error := Option.some e }
      { result := .ok nr, ctx := ctx, calls := [cmd] }
    | .result r =>
      let output : Value := .dict
        [("operation", operation), ("success", .bool r.success), ("output", r.output)]
      let nr : NodeResult :=
        { node_id := node.id,
          status := if r.success then .completed else .failed,
          output := Option.some output, tool_calls_used := 1 }
      { result := .ok nr, ctx := ctxSet ctx (outKey node) output, calls := [cmd] }

/-- Command synthesis of `TerraformHandler.__call__` (handlers.py lines
186-199): operation → command template, with the `auto_approve`-dependent
suffixes of `apply` and `destroy`. -/
def tfCmd (binary : String) (operation auto_approve : Value) : Option String :=
  if pyEqStr operation "init" then Option.some (binary ++ " init")
  else if pyEqStr operation "plan" then Option.some (binary ++ " plan -out=tfplan")
  else if pyEqStr operation "apply" then
    Option.some (binary ++ " apply" ++ (if pyTruthy auto_approve then " -auto-approve" else " tfplan"))
  else if pyEqStr operation "destroy" then
    Option.some (binary ++ " destroy" ++ (if pyTruthy auto_approve then " -auto-approve" else ""))
  else Option.none

/-- Body of `TerraformHandler.__call__` after the optional workspace
pre-step (handlers.py lines 186-237); `tool_calls0` and `calls0` carry
what the pre-step already did.  Note the unknown-operation and exception
branches return `NodeResult`s without `tool_calls_used`, leaving it at its
default. -/
def terraformMain (binary : String) (node : ComputeNode) (ctx : Ctx)
    (exec : String → ExecOutcome) (workspace : Value)
    (tool_calls0 : Nat) (calls0 : List String) : HandlerOutcome :=
  let operation := ctxGet node.input_mapping "operation" (.str "plan")
  let auto_approve := ctxGet node.input_mapping "auto_approve" (.bool false)
  match tfCmd binary operation auto_approve with
  | Option.none =>
    let nr : NodeResult :=
      { node_id := node.id, status := .failed,
        error := Option.some ("Unknown operation: " ++ pyStr operation) }
    { result := .ok nr, ctx := ctx, calls := calls0 }
  | Option.some cmd =>
    match exec cmd with
    | .raised e =>
      let nr : NodeResult :=
        { node_id := node.id, status := .failed, error := Option.some e }
      { result := .ok nr, ctx := ctx, calls := calls0 ++ [cmd] }
    | .result r =>
      let output : Value := .dict
        [("operation", operation), ("workspace", workspace),
         ("success", .bool r.success), ("output", r.output)]
      let nr : NodeResult :=
        { node_id := node.id,
          status := if r.success then .completed else .failed,
          output := Option.some output, tool_calls_used := tool_calls0 + 1 }
      { result := .ok nr, ctx := ctxSet ctx (outKey node) output, calls := calls0 ++ [cmd] }

/-- `TerraformHandler.__call__` (handlers.py lines 165-237).  The workspace
pre-step executor call (lines 180-184) sits outside the `try` block, so an
exception it raises propagates out of the handler (the `.error` case);
its `CommandResult` is otherwise discarded. -/
def terraformCall (binary : String) (node : ComputeNode) (ctx : Ctx)
    (exec : String → ExecOutcome) : HandlerOutcome :=
  let workspace := ctxGet node.input_mapping "workspace" Value.none
  if pyTruthy workspace then
    let wsCmd := binary ++ " workspace select " ++ pyStr workspace
    match exec wsCmd with
    | .raised e => { result := .error e, ctx := ctx, calls := [wsCmd] }
    | .result _ => terraformMain binary node ctx exec workspace 1 [wsCmd]
  else
    terraformMain binary node ctx exec workspace 0 []

/-! ## Capability config store (`victor_devops/capabilities.py`) -/

/-- An orchestrator as the capability-config code sees it: an optional
service-backed capability-config store (reachable through the service
locator) and an optional legacy `safety_config` attribute bag
(`Option.none` models `hasattr(orchestrator, "safety_config")` being
false).  Both map names to settings values. -/
structure Orchestrator where
  configService : Option (List (String × Value))
  safety_config : Option (List (String × Value))

/-- Modelled from the spec: `store_capability_config` of the framework
(`victor.framework.capability_config_helpers`, an external collaborator
not in this repository's sources) writes the settings into the
service-backed store obtained from the orchestrator's service locator and
reports whether such a service accepted the write. -/
def store_capability_config (o : Orchestrator) (name : String) (config : Value) :
    Bool × Orchestrator :=
  match o.configService with
  | Option.some store =>
    (true, { o with configService := Option.some (ctxSet store name config) })
  | Option.none => (false, o)

/-- The settings dict built by `configure_deployment_safety`
(capabilities.py lines 119-124).  Python `protected_environments or
["production", "staging"]` falls through both on `None` and on an empty
list. -/
def deploymentSafetyConfig (rap rbd er : Bool) (pe : Option (List String)) : Value :=
  let envs := match pe with
    | Option.some l => if l.isEmpty then ["production", "staging"] else l
    | Option.none => ["production", "staging"]
  .dict
    [("require_approval_for_production", .bool rap),
     ("require_backup_before_deploy", .bool rbd),
     ("enable_rollback", .bool er),
     ("protected_environments", .list (envs.map .str))]

/-- `configure_deployment_safety` (capabilities.py lines 99-136): tries the
service store first; only when no service accepted the write AND the
orchestrator has the legacy `safety_config` attribute does it write the
full settings dict under that attribute's "deployment" key (the Python
builds an identical dict literal a second time for the legacy write). -/
def configure_deployment_safety (o : Orchestrator) (rap rbd er : Bool)
    (pe : Option (List String)) : Orchestrator :=
  let config := deploymentSafetyConfig rap rbd er pe
  let sr := store_capability_config o "deployment_safety" config
  match sr.1, sr.2.safety_config with
  | false, Option.some legacy =>
    { sr.2 with safety_config := Option.some (ctxSet legacy "deployment" config) }
  | _, _ => sr.2

/-! ## Spec-side (claim-side) definitions

These render the claims' words, to be compared against the embedded code. -/

/-- Claim C1 rendition: the deployment_ready decision rule as the spec
states it, checks applied in the stated fixed order (a context value "is
false" when it is Python-falsy). -/
def deployment_ready_claim (ctx : Ctx) : String :=
  let config_valid := ctxGet ctx "config_valid" (.bool false)
  let dependencies_met := ctxGet ctx "dependencies_met" (.bool false)
  let approval_status := ctxGet ctx "approval_status" (.str "pending")
  let environment := ctxGet ctx "environment" (.str "development")
  if !pyTruthy config_valid then "failed"
  else if !pyTruthy dependencies_met then "blocked"
  else if pyEqStr environment "production" && !pyEqStr approval_status "approved" then "blocked"
  else if pyEqStr approval_status "rejected" then "failed"
  else "ready"

/-- Claim C4 rendition of the threshold index: the position of the
severity threshold in [info, low, medium, high, critical]; any string not
in the list yields index 3 (as does a non-string value, which the code
treats the same way). -/
def thresholdIdxClaim (threshold : Value) : Nat :=
  match threshold with
  | .str s => if s ∈ severity_levels then severity_levels.indexOf s else 3
  | _ => 3

/-! ## Theorems -/

/-- The source and claim-side threshold indices agree. -/
theorem thresholdIdx_eq_claim (v : Value) : thresholdIdx v = thresholdIdxClaim v := by
  cases v <;> simp [thresholdIdx, thresholdIdxClaim, pyInStrList, List.contains, List.elem_iff]

/-- Claim C1: for every context, deployment_ready returns exactly one of
"ready"/"blocked"/"failed", applying its checks in the fixed order stated
by the spec (config, dependencies, production-approval, rejection); in
particular a production context with approval_status="rejected" yields
"blocked", not "failed". -/
theorem c1_deployment_ready_order :
    (∀ ctx : Ctx,
      deployment_ready ctx = .ok (deployment_ready_claim ctx) ∧
      (deployment_ready ctx = .ok "ready" ∨ deployment_ready ctx = .ok "blocked" ∨
        deployment_ready ctx = .ok "failed")) ∧
    deployment_ready
      [("config_valid", .bool true), ("dependencies_met", .bool true),
       ("environment", .str "production"), ("approval_status", .str "rejected")] =
      .ok "blocked" := by
  refine ⟨fun ctx => ?_, rfl⟩
  have heq : deployment_ready ctx = .ok (deployment_ready_claim ctx) := by
    simp only [deployment_ready, deployment_ready_claim]
    split_ifs <;> rfl
  refine ⟨heq, ?_⟩
  rw [heq]
  simp only [deployment_ready_claim]
  split_ifs <;> simp

/-- Position of "high" in the severity list. -/
theorem severity_indexOf_high : severity_levels.indexOf "high" = 3 := rfl

/-- Position of "medium" in the severity list. -/
theorem severity_indexOf_medium : severity_levels.indexOf "medium" = 2 := rfl

/-- Claim C4: on any context whose scan counts (with default 0) are
numeric, security_scan_verdict follows the spec's threshold rule, where
the threshold index is the position of severity_threshold in
[info, low, medium, high, critical] and an unknown threshold yields 3;
and medium-only findings under the default threshold yield "pass". -/
theorem c4_security_scan_verdict_rule :
    (∀ (ctx : Ctx) (c h m : ℚ),
      pyGetAttr (ctxGet ctx "scan_results" (.dict [])) "critical" (.num 0) = .ok (.num c) →
      pyGetAttr (ctxGet ctx "scan_results" (.dict [])) "high" (.num 0) = .ok (.num h) →
      pyGetAttr (ctxGet ctx "scan_results" (.dict [])) "medium" (.num 0) = .ok (.num m) →
      security_scan_verdict ctx = .ok
        (if 0 < c then "fail"
         else if 0 < h ∧ thresholdIdxClaim (ctxGet ctx "severity_threshold" (.str "high")) ≤ 3 then "fail"
         else if 0 < m ∧ thresholdIdxClaim (ctxGet ctx "severity_threshold" (.str "high")) ≤ 2 then "warn"
         else "pass")) ∧
    security_scan_verdict [("scan_results", .dict [("critical", .num 0), ("high", .num 0), ("medium", .num 2)])] =
      .ok "pass" := by
  constructor
  · intro ctx c h m hc hh hm
    simp only [security_scan_verdict, hc, hh, hm, pyGt, pyNum, thresholdIdx_eq_claim,
      severity_indexOf_high, severity_indexOf_medium]
    by_cases h1 : (0:ℚ) < c <;> by_cases h2 : (0:ℚ) < h <;> by_cases h3 : (0:ℚ) < m <;>
      by_cases h4 : thresholdIdxClaim (ctxGet ctx "severity_threshold" (.str "high")) ≤ 3 <;>
      by_cases h5 : thresholdIdxClaim (ctxGet ctx "severity_threshold" (.str "high")) ≤ 2 <;>
      simp [h1, h2, h3, h4, h5]
  · rfl

/-- Witness for C4: a context with critical=1 yields "fail" through the
rule theorem. -/
theorem c4_security_scan_verdict_rule_witness :
    security_scan_verdict
      [("scan_results", .dict [("critical", .num 1), ("high", .num 0), ("medium", .num 0)])] =
      .ok "fail" := by
  have h := c4_security_scan_verdict_rule.1
    [("scan_results", .dict [("critical", .num 1), ("high", .num 0), ("medium", .num 0)])]
    1 0 0 rfl rfl rfl
  simpa using h

/-- Claim C8: on any context whose coverage values are numeric,
pipeline_stage_gate aborts on failed tests without allow_failures, aborts
on insufficient coverage, and proceeds otherwise; and the declared verdict
"retry" is never returned for any input whatsoever. -/
theorem c8_pipeline_stage_gate_rule :
    (∀ (ctx : Ctx) (tp : Value) (cov req : ℚ),
      pyGetAttr (ctxGet ctx "stage_results" (.dict [])) "tests_passed" (.bool false) = .ok tp →
      pyGetAttr (ctxGet ctx "stage_results" (.dict [])) "coverage" (.num 0) = .ok (.num cov) →
      ctxGet ctx "required_coverage" (.num (8/10)) = .num req →
      pipeline_stage_gate ctx = .ok
        (if (!pyTruthy tp && !pyTruthy (ctxGet ctx "allow_failures" (.bool false))) = true then "abort"
         else if cov < req then "abort"
         else "proceed")) ∧
    (∀ ctx : Ctx, pipeline_stage_gate ctx ≠ .ok "retry") := by
  constructor
  · intro ctx tp cov req htp hcov hreq
    simp only [pipeline_stage_gate, htp, hcov, hreq, pyLt, pyNum]
    by_cases h1 : (!pyTruthy tp && !pyTruthy (ctxGet ctx "allow_failures" (.bool false))) = true <;>
      by_cases h2 : cov < req <;> simp [h1, h2]
  · intro ctx
    simp only [pipeline_stage_gate]
    repeat' split
    all_goals simp

/-- Witness for C8: passing tests with sufficient coverage proceed. -/
theorem c8_pipeline_stage_gate_rule_witness :
    pipeline_stage_gate
      [("stage_results", .dict [("tests_passed", .bool true), ("coverage", .num (9/10))])] =
      .ok "proceed" := by
  have h := c8_pipeline_stage_gate_rule.1
    [("stage_results", .dict [("tests_passed", .bool true), ("coverage", .num (9/10))])]
    (.bool true) (9/10) (8/10) rfl rfl rfl
  have hno : ¬ ((9:ℚ)/10 < 8/10) := by norm_num
  simpa [pyTruthy, hno] using h

/-- Claim C9: on any context whose monitoring/notification/docs results
have `.get`-capable values, merge_deployment_results returns a summary
with exactly the five fixed keys, whose all_tasks_success is the
conjunction of the monitoring and notification success flags (default
false) and the docs success flag (default true: docs are optional). -/
theorem c9_merge_deployment_results_shape :
    ∀ (ctx : Ctx) (m n d d2 : Value),
      pyGetAttr (ctxGet ctx "monitoring_result" (.dict [])) "success" (.bool false) = .ok m →
      pyGetAttr (ctxGet ctx "notification_result" (.dict [])) "success" (.bool false) = .ok n →
      pyGetAttr (ctxGet ctx "docs_result" (.dict [])) "success" (.bool true) = .ok d →
      pyGetAttr (ctxGet ctx "docs_result" (.dict [])) "success" (.bool false) = .ok d2 →
      merge_deployment_results ctx = .ok (.dict
        [("all_tasks_complete", .bool true),
         ("all_tasks_success", .bool (pyTruthy m && pyTruthy n && pyTruthy d)),
         ("monitoring_updated", m),
         ("notification_sent", n),
         ("docs_updated", d2)]) := by
  intro ctx m n d d2 hm hn hd hd2
  simp only [merge_deployment_results, hm, hn, hd, hd2]

/-- Witness for C9: monitoring and notification succeeded, docs absent,
so all_tasks_success is true while docs_updated reads false. -/
theorem c9_merge_deployment_results_shape_witness :
    merge_deployment_results
      [("monitoring_result", .dict [("success", .bool true)]),
       ("notification_result", .dict [("success", .bool true)])] =
      .ok (.dict
        [("all_tasks_complete", .bool true),
         ("all_tasks_success", .bool true),
         ("monitoring_updated", .bool true),
         ("notification_sent", .bool true),
         ("docs_updated", .bool false)]) := by
  have h := c9_merge_deployment_results_shape
    [("monitoring_result", .dict [("success", .bool true)]),
     ("notification_result", .dict [("success", .bool true)])]
    (.bool true) (.bool true) (.bool true) (.bool false) rfl rfl rfl rfl
  simpa [pyTruthy] using h

/-! ## Totality of the gates (claim C5)

Well-typedness predicates: the relevant context values, where present,
have the types the gate's documented defaults suggest.  Keys may be
absent (the predicate then holds through the defaults). -/

/-- health_results (default empty) is a dict of dicts and min_healthy_pct
(default 0.8) is numeric. -/
def wtHealth (ctx : Ctx) : Prop :=
  (∃ kvs, ctxGet ctx "health_results" (.dict []) = .dict kvs ∧
    ∀ kv ∈ kvs, ∃ m, kv.2 = Value.dict m) ∧
  (∃ q, ctxGet ctx "min_healthy_pct" (.num (8/10)) = .num q)

/-- deploy_result (default empty dict) supports `.get` and error_rate
(default 0) is numeric. -/
def wtRollback (ctx : Ctx) : Prop :=
  (∃ s, pyGetAttr (ctxGet ctx "deploy_result" (.dict [])) "success" (.bool false) = .ok s) ∧
  (∃ q, ctxGet ctx "error_rate" (.num 0) = .num q)

/-- build_result supports `.get`; image_size and max_size are numeric. -/
def wtContainer (ctx : Ctx) : Prop :=
  (∃ s, pyGetAttr (ctxGet ctx "build_result" (.dict [])) "success" (.bool false) = .ok s) ∧
  (∃ a, ctxGet ctx "image_size" (.num 0) = .num a) ∧
  (∃ b, ctxGet ctx "max_size" (.num 2000) = .num b)

/-- plan_changes supports `.get` and its three counts (default 0) are
numeric. -/
def wtDrift (ctx : Ctx) : Prop :=
  (∃ a, pyGetAttr (ctxGet ctx "plan_changes" (.dict [])) "create" (.num 0) = .ok (.num a)) ∧
  (∃ b, pyGetAttr (ctxGet ctx "plan_changes" (.dict [])) "update" (.num 0) = .ok (.num b)) ∧
  (∃ c, pyGetAttr (ctxGet ctx "plan_changes" (.dict [])) "destroy" (.num 0) = .ok (.num c))

/-- scan_results supports `.get` and its three counts (default 0) are
numeric. -/
def wtScan (ctx : Ctx) : Prop :=
  (∃ c, pyGetAttr (ctxGet ctx "scan_results" (.dict [])) "critical" (.num 0) = .ok (.num c)) ∧
  (∃ h, pyGetAttr (ctxGet ctx "scan_results" (.dict [])) "high" (.num 0) = .ok (.num h)) ∧
  (∃ m, pyGetAttr (ctxGet ctx "scan_results" (.dict [])) "medium" (.num 0) = .ok (.num m))

/-- stage_results supports `.get`, its coverage (default 0) is numeric,
and required_coverage (default 0.8) is numeric. -/
def wtStage (ctx : Ctx) : Prop :=
  (∃ cov, pyGetAttr (ctxGet ctx "stage_results" (.dict [])) "coverage" (.num 0) = .ok (.num cov)) ∧
  (∃ req, ctxGet ctx "required_coverage" (.num (8/10)) = .num req)

/-- A successful `.get` forces the receiver to be a dict. -/
theorem pyGetAttr_ok_dict {v : Value} {k : String} {d w : Value}
    (h : pyGetAttr v k d = .ok w) : ∃ kvs, v = Value.dict kvs := by
  cases v
  case dict kvs => exact ⟨kvs, rfl⟩
  all_goals simp [pyGetAttr] at h

/-- The healthy-endpoint counter succeeds on a list of dicts. -/
theorem countHealthy_ok (vals : List Value)
    (h : ∀ v ∈ vals, ∃ m, v = Value.dict m) : ∃ n, countHealthy vals = .ok n := by
  induction vals with
  | nil => exact ⟨0, rfl⟩
  | cons r rs ih =>
    obtain ⟨m, hm⟩ := h r (by simp)
    obtain ⟨n, hn⟩ := ih (fun v hv => h v (by simp [hv]))
    subst hm
    exact ⟨(if pyEqStr ((dictLookup m "status").getD Value.none) "healthy" then 1 else 0) + n,
      by simp [countHealthy, pyGetAttr, hn]⟩

/-- deployment_ready is total on every context. -/
theorem deployment_ready_total (ctx : Ctx) :
    ∃ v, deployment_ready ctx = .ok v ∧ v ∈ (["ready", "blocked", "failed"] : List String) := by
  simp only [deployment_ready]
  split_ifs <;> exact ⟨_, rfl, by simp⟩

/-- health_check_status is total on well-typed contexts. -/
theorem health_check_status_total (ctx : Ctx) (h : wtHealth ctx) :
    ∃ v, health_check_status ctx = .ok v ∧
      v ∈ (["healthy", "degraded", "unhealthy"] : List String) := by
  obtain ⟨⟨kvs, hres, hdicts⟩, ⟨q, hq⟩⟩ := h
  have hcount : ∃ n, countHealthy (kvs.map Prod.snd) = .ok n := by
    refine countHealthy_ok _ (fun v hv => ?_)
    obtain ⟨kv, hkv, rfl⟩ := List.mem_map.mp hv
    exact hdicts kv hkv
  obtain ⟨n, hn⟩ := hcount
  simp only [health_check_status, hres, hq, pyTruthy, pyLen, pyValues, hn, pyGe, pyNum]
  split_ifs <;> simp

/-- rollback_needed is total on well-typed contexts. -/
theorem rollback_needed_total (ctx : Ctx) (h : wtRollback ctx) :
    ∃ v, rollback_needed ctx = .ok v ∧
      v ∈ (["rollback", "monitor", "stable"] : List String) := by
  obtain ⟨⟨s, hs⟩, ⟨q, hq⟩⟩ := h
  simp only [rollback_needed, hs, hq, pyGt, pyNum]
  split_ifs <;> simp

/-- container_build_status is total on well-typed contexts. -/
theorem container_build_status_total (ctx : Ctx) (h : wtContainer ctx) :
    ∃ v, container_build_status ctx = .ok v ∧
      v ∈ (["success", "warning", "failed"] : List String) := by
  obtain ⟨⟨s, hs⟩, ⟨a, ha⟩, ⟨b, hb⟩⟩ := h
  simp only [container_build_status, hs, ha, hb, pyGt, pyNum]
  split_ifs <;> simp

/-- infrastructure_drift is total on well-typed contexts. -/
theorem infrastructure_drift_total (ctx : Ctx) (h : wtDrift ctx) :
    ∃ v, infrastructure_drift ctx = .ok v ∧
      v ∈ (["no_drift", "minor_drift", "major_drift", "destructive"] : List String) := by
  obtain ⟨⟨a, ha⟩, ⟨b, hb⟩, ⟨c, hc⟩⟩ := h
  simp only [infrastructure_drift, ha, hb, hc, pyGt, pyAdd, pyNum]
  split_ifs <;> simp

/-- security_scan_verdict is total on well-typed contexts. -/
theorem security_scan_verdict_total (ctx : Ctx) (h : wtScan ctx) :
    ∃ v, security_scan_verdict ctx = .ok v ∧
      v ∈ (["pass", "warn", "fail"] : List String) := by
  obtain ⟨⟨c, hc⟩, ⟨hi, hh⟩, ⟨m, hm⟩⟩ := h
  simp only [security_scan_verdict, hc, hh, hm, pyGt, pyNum]
  split_ifs <;> simp

/-- pipeline_stage_gate is total on well-typed contexts. -/
theorem pipeline_stage_gate_total (ctx : Ctx) (h : wtStage ctx) :
    ∃ v, pipeline_stage_gate ctx = .ok v ∧
      v ∈ (["proceed", "retry", "abort"] : List String) := by
  obtain ⟨⟨cov, hcov⟩, ⟨req, hreq⟩⟩ := h
  obtain ⟨kvs, hk⟩ := pyGetAttr_ok_dict hcov
  rw [hk] at hcov
  simp only [pyGetAttr, Except.ok.injEq] at hcov
  simp only [pipeline_stage_gate, hk, hcov, hreq, pyGetAttr, pyLt, pyNum]
  split_ifs <;> simp

/-- Claim C5 counterexample: the claim asserts totality on malformed
values, but its own example inputs crash — a health_results entry that is
not a map raises AttributeError inside health_check_status, and a
deploy_result that is not a map raises AttributeError inside
rollback_needed. -/
theorem c5_gates_crash_on_malformed :
    health_check_status [("health_results", .dict [("endpoint", .str "up")])] =
      .error .attributeError ∧
    rollback_needed [("deploy_result", .str "done")] = .error .attributeError := ⟨rfl, rfl⟩

/-- Claim C5 (amended): each of the seven gates resolves absent keys
through its documented defaults and returns a verdict from its declared
set on every context whose present relevant values are well-typed;
deployment_ready is total even on malformed values. -/
theorem c5_gates_total :
    ∀ ctx : Ctx,
      (∃ v, deployment_ready ctx = .ok v ∧ v ∈ (["ready", "blocked", "failed"] : List String)) ∧
      (wtHealth ctx → ∃ v, health_check_status ctx = .ok v ∧
        v ∈ (["healthy", "degraded", "unhealthy"] : List String)) ∧
      (wtRollback ctx → ∃ v, rollback_needed ctx = .ok v ∧
        v ∈ (["rollback", "monitor", "stable"] : List String)) ∧
      (wtContainer ctx → ∃ v, container_build_status ctx = .ok v ∧
        v ∈ (["success", "warning", "failed"] : List String)) ∧
      (wtDrift ctx → ∃ v, infrastructure_drift ctx = .ok v ∧
        v ∈ (["no_drift", "minor_drift", "major_drift", "destructive"] : List String)) ∧
      (wtScan ctx → ∃ v, security_scan_verdict ctx = .ok v ∧
        v ∈ (["pass", "warn", "fail"] : List String)) ∧
      (wtStage ctx → ∃ v, pipeline_stage_gate ctx = .ok v ∧
        v ∈ (["proceed", "retry", "abort"] : List String)) :=
  fun ctx =>
    ⟨deployment_ready_total ctx, health_check_status_total ctx, rollback_needed_total ctx,
     container_build_status_total ctx, infrastructure_drift_total ctx,
     security_scan_verdict_total ctx, pipeline_stage_gate_total ctx⟩

/-- Witness for C5 at the empty context, where every well-typedness
hypothesis holds by the defaults. -/
theorem c5_gates_total_witness :
    (∃ v, deployment_ready ([] : Ctx) = .ok v ∧ v ∈ (["ready", "blocked", "failed"] : List String)) ∧
    (∃ v, health_check_status ([] : Ctx) = .ok v ∧
      v ∈ (["healthy", "degraded", "unhealthy"] : List String)) ∧
    (∃ v, rollback_needed ([] : Ctx) = .ok v ∧
      v ∈ (["rollback", "monitor", "stable"] : List String)) ∧
    (∃ v, container_build_status ([] : Ctx) = .ok v ∧
      v ∈ (["success", "warning", "failed"] : List String)) ∧
    (∃ v, infrastructure_drift ([] : Ctx) = .ok v ∧
      v ∈ (["no_drift", "minor_drift", "major_drift", "destructive"] : List String)) ∧
    (∃ v, security_scan_verdict ([] : Ctx) = .ok v ∧
      v ∈ (["pass", "warn", "fail"] : List String)) ∧
    (∃ v, pipeline_stage_gate ([] : Ctx) = .ok v ∧
      v ∈ (["proceed", "retry", "abort"] : List String)) := by
  have h := c5_gates_total []
  refine ⟨h.1, ?_, ?_, ?_, ?_, ?_, ?_⟩
  · exact h.2.1 ⟨⟨[], rfl, by simp⟩, ⟨8/10, rfl⟩⟩
  · exact h.2.2.1 ⟨⟨.bool false, rfl⟩, ⟨0, rfl⟩⟩
  · exact h.2.2.2.1 ⟨⟨.bool false, rfl⟩, ⟨0, rfl⟩, ⟨2000, rfl⟩⟩
  · exact h.2.2.2.2.1 ⟨⟨0, rfl⟩, ⟨0, rfl⟩, ⟨0, rfl⟩⟩
  · exact h.2.2.2.2.2.1 ⟨⟨0, rfl⟩, ⟨0, rfl⟩, ⟨0, rfl⟩⟩
  · exact h.2.2.2.2.2.2 ⟨⟨0, rfl⟩, ⟨8/10, rfl⟩⟩

/-! ## Handler theorems (claims C2, C3, C6, C10) -/

/-- An executor whose every command returns success. -/
def okExec : String → ExecOutcome := fun _ => .result { success := true, output := .str "done" }

/-- An executor whose every command reports failure (success=False). -/
def failExec : String → ExecOutcome :=
  fun _ => .result { success := false, error := Option.some "failed" }

/-- An executor that raises an exception on every command. -/
def boomExec : String → ExecOutcome := fun _ => .raised "boom"

/-- An IaC node with workspace "production" and an unrecognized
operation. -/
def tfNodeUnknownWs : ComputeNode :=
  { id := "n", input_mapping := [("operation", .str "invalid_op"), ("workspace", .str "production")] }

/-- An IaC node with workspace "production" and operation "plan". -/
def tfNodePlanWs : ComputeNode :=
  { id := "n", input_mapping := [("operation", .str "plan"), ("workspace", .str "production")] }

/-- The Failed NodeResult both handlers return for an unrecognized
operation: error "Unknown operation: {op}", everything else left at the
constructor defaults (in particular tool_calls_used = 0). -/
def unknownOpResult (nid op : String) : NodeResult :=
  { node_id := nid, status := .failed,
    error := Option.some ("Unknown operation: " ++ op), tool_calls_used := 0 }

/-- The Failed NodeResult a handler returns when the caught executor
exception had string representation `e`; tool_calls_used is left at its
default 0 even when a workspace pre-step already ran. -/
def exceptionResult (nid e : String) : NodeResult :=
  { node_id := nid, status := .failed, error := Option.some e, tool_calls_used := 0 }

/-- An operation string outside the container handler's table synthesizes
no command. -/
theorem containerCmd_unknown (rt : String) (node : ComputeNode) (op : String)
    (hop : ctxGet node.input_mapping "operation" (.str "build") = .str op)
    (hmem : op ∉ (["build", "push", "pull", "run", "stop"] : List String)) :
    containerCmd rt node = Option.none := by
  simp only [List.mem_cons, List.not_mem_nil, or_false, not_or] at hmem
  obtain ⟨h1, h2, h3, h4, h5⟩ := hmem
  simp [containerCmd, hop, pyEqStr, h1, h2, h3, h4, h5]

/-- An operation string outside the IaC handler's table synthesizes no
command. -/
theorem tfCmd_unknown (bin : String) (op : String) (aa : Value)
    (hmem : op ∉ (["init", "plan", "apply", "destroy"] : List String)) :
    tfCmd bin (.str op) aa = Option.none := by
  simp only [List.mem_cons, List.not_mem_nil, or_false, not_or] at hmem
  obtain ⟨h1, h2, h3, h4⟩ := hmem
  simp [tfCmd, pyEqStr, h1, h2, h3, h4]

/-- Claim C2 counterexample: with workspace="production" and an
unrecognized operation, the IaC handler does execute the workspace-select
pre-step, yet the NodeResult it returns reports tool_calls_used = 0 — the
pre-step is not counted as an already-executed tool call. -/
theorem c2_unknown_op_prestep_not_counted :
    (terraformCall "terraform" tfNodeUnknownWs [] okExec).calls =
      ["terraform workspace select production"] ∧
    (terraformCall "terraform" tfNodeUnknownWs [] okExec).result =
      .ok (unknownOpResult "n" "invalid_op") :=
  ⟨rfl, rfl⟩

/-- Claim C2 (amended): an unrecognized operation yields a Failed
NodeResult with error exactly "Unknown operation: {op}" and no exception;
the container handler executes no command at all; the IaC handler has
still executed the workspace-select pre-step when a truthy workspace
parameter was present (provided that executor invocation returned), but
the returned NodeResult leaves tool_calls_used at its default 0 rather
than counting the pre-step. -/
theorem c2_unknown_operation_contract :
    (∀ (rt : String) (node : ComputeNode) (ctx : Ctx) (exec : String → ExecOutcome) (op : String),
      ctxGet node.input_mapping "operation" (.str "build") = .str op →
      op ∉ (["build", "push", "pull", "run", "stop"] : List String) →
      containerCall rt node ctx exec =
        { result := .ok (unknownOpResult node.id op), ctx := ctx, calls := [] }) ∧
    (∀ (bin : String) (node : ComputeNode) (ctx : Ctx) (exec : String → ExecOutcome)
        (op : String) (r : CommandResult),
      ctxGet node.input_mapping "operation" (.str "plan") = .str op →
      op ∉ (["init", "plan", "apply", "destroy"] : List String) →
      pyTruthy (ctxGet node.input_mapping "workspace" Value.none) = true →
      exec (bin ++ " workspace select " ++
        pyStr (ctxGet node.input_mapping "workspace" Value.none)) = .result r →
      terraformCall bin node ctx exec =
        { result := .ok (unknownOpResult node.id op), ctx := ctx,
          calls := [bin ++ " workspace select " ++
            pyStr (ctxGet node.input_mapping "workspace" Value.none)] }) ∧
    (∀ (bin : String) (node : ComputeNode) (ctx : Ctx) (exec : String → ExecOutcome)
        (op : String),
      ctxGet node.input_mapping "operation" (.str "plan") = .str op →
      op ∉ (["init", "plan", "apply", "destroy"] : List String) →
      pyTruthy (ctxGet node.input_mapping "workspace" Value.none) = false →
      terraformCall bin node ctx exec =
        { result := .ok (unknownOpResult node.id op), ctx := ctx, calls := [] }) := by
  refine ⟨?_, ?_, ?_⟩
  · intro rt node ctx exec op hop hmem
    have hc := containerCmd_unknown rt node op hop hmem
    simp [containerCall, hc, hop, pyStr, unknownOpResult]
  · intro bin node ctx exec op r hop hmem hws hexec
    have hc := tfCmd_unknown bin op (ctxGet node.input_mapping "auto_approve" (.bool false)) hmem
    simp [terraformCall, terraformMain, hws, hexec, hop, hc, pyStr, unknownOpResult]
  · intro bin node ctx exec op hop hmem hws
    have hc := tfCmd_unknown bin op (ctxGet node.input_mapping "auto_approve" (.bool false)) hmem
    simp [terraformCall, terraformMain, hws, hop, hc, pyStr, unknownOpResult]

/-- Witness for C2 at concrete inputs: both handlers reject operation
"invalid_op". -/
theorem c2_unknown_operation_contract_witness :
    containerCall "docker" { id := "c", input_mapping := [("operation", .str "invalid_op")] }
      [] okExec =
      { result := .ok (unknownOpResult "c" "invalid_op"), ctx := [], calls := [] } ∧
    terraformCall "terraform" tfNodeUnknownWs [] okExec =
      { result := .ok (unknownOpResult "n" "invalid_op"), ctx := [],
        calls := ["terraform workspace select production"] } := by
  constructor
  · exact c2_unknown_operation_contract.1 "docker"
      { id := "c", input_mapping := [("operation", .str "invalid_op")] } [] okExec
      "invalid_op" rfl (by decide)
  · exact c2_unknown_operation_contract.2.1 "terraform" tfNodeUnknownWs [] okExec
      "invalid_op" { success := true, output := .str "done" } rfl (by decide) rfl rfl

/-- Claim C3 counterexample: an exception raised by the executor during
the IaC workspace-select pre-step propagates out of the handler instead of
being converted to a Failed NodeResult. -/
theorem c3_workspace_exception_propagates :
    terraformCall "terraform" tfNodePlanWs [] boomExec =
      { result := .error "boom", ctx := [],
        calls := ["terraform workspace select production"] } := rfl

/-- Claim C3 (amended): every exception raised while invoking the
executor for the main command is caught inside the handler and converted
to a Failed NodeResult whose error is the exception's string
representation, with the context left unchanged; the container handler
never lets any exception propagate; but an exception raised during the
IaC workspace-select pre-step propagates to the caller. -/
theorem c3_executor_exception_contract :
    (∀ (rt : String) (node : ComputeNode) (ctx : Ctx) (exec : String → ExecOutcome),
      ∃ nr, (containerCall rt node ctx exec).result = .ok nr) ∧
    (∀ (rt : String) (node : ComputeNode) (ctx : Ctx) (exec : String → ExecOutcome)
        (cmd e : String),
      containerCmd rt node = Option.some cmd →
      exec cmd = .raised e →
      containerCall rt node ctx exec =
        { result := .ok (exceptionResult node.id e), ctx := ctx, calls := [cmd] }) ∧
    (∀ (bin : String) (node : ComputeNode) (ctx : Ctx) (exec : String → ExecOutcome)
        (cmd e : String),
      pyTruthy (ctxGet node.input_mapping "workspace" Value.none) = false →
      tfCmd bin (ctxGet node.input_mapping "operation" (.str "plan"))
        (ctxGet node.input_mapping "auto_approve" (.bool false)) = Option.some cmd →
      exec cmd = .raised e →
      terraformCall bin node ctx exec =
        { result := .ok (exceptionResult node.id e), ctx := ctx, calls := [cmd] }) ∧
    (∀ (bin : String) (node : ComputeNode) (ctx : Ctx) (exec : String → ExecOutcome)
        (cmd e : String) (r : CommandResult),
      pyTruthy (ctxGet node.input_mapping "workspace" Value.none) = true →
      exec (bin ++ " workspace select " ++
        pyStr (ctxGet node.input_mapping "workspace" Value.none)) = .result r →
      tfCmd bin (ctxGet node.input_mapping "operation" (.str "plan"))
        (ctxGet node.input_mapping "auto_approve" (.bool false)) = Option.some cmd →
      exec cmd = .raised e →
      terraformCall bin node ctx exec =
        { result := .ok (exceptionResult node.id e), ctx := ctx,
          calls := [bin ++ " workspace select " ++
            pyStr (ctxGet node.input_mapping "workspace" Value.none), cmd] }) ∧
    (∀ (bin : String) (node : ComputeNode) (ctx : Ctx) (exec : String → ExecOutcome)
        (e : String),
      pyTruthy (ctxGet node.input_mapping "workspace" Value.none) = true →
      exec (bin ++ " workspace select " ++
        pyStr (ctxGet node.input_mapping "workspace" Value.none)) = .raised e →
      terraformCall bin node ctx exec =
        { result := .error e, ctx := ctx,
          calls := [bin ++ " workspace select " ++
            pyStr (ctxGet node.input_mapping "workspace" Value.none)] }) := by
  refine ⟨?_, ?_, ?_, ?_, ?_⟩
  · intro rt node ctx exec
    simp only [containerCall]
    rcases h1 : containerCmd rt node with _ | cmd
    · simp only [h1]
      exact ⟨_, rfl⟩
    · simp only [h1]
      rcases h2 : exec cmd with r | e
      · simp only [h2]
        exact ⟨_, rfl⟩
      · simp only [h2]
        exact ⟨_, rfl⟩
  · intro rt node ctx exec cmd e hcmd hexec
    simp [containerCall, hcmd, hexec, exceptionResult]
  · intro bin node ctx exec cmd e hws hcmd hexec
    simp [terraformCall, terraformMain, hws, hcmd, hexec, exceptionResult]
  · intro bin node ctx exec cmd e r hws hpre hcmd hexec
    simp [terraformCall, terraformMain, hws, hpre, hcmd, hexec, exceptionResult]
  · intro bin node ctx exec e hws hpre
    simp [terraformCall, hws, hpre]

/-- Witness for C3 at concrete inputs: a raising executor on the main
command of each handler is caught and surfaced as a Failed NodeResult. -/
theorem c3_executor_exception_contract_witness :
    containerCall "docker" { id := "c", input_mapping := [("operation", .str "build")] }
      [] boomExec =
      { result := .ok (exceptionResult "c" "boom"), ctx := [],
        calls := ["docker build -f Dockerfile -t latest ."] } ∧
    terraformCall "terraform" { id := "t", input_mapping := [("operation", .str "init")] }
      [] boomExec =
      { result := .ok (exceptionResult "t" "boom"), ctx := [], calls := ["terraform init"] } := by
  constructor
  · exact c3_executor_exception_contract.2.1 "docker"
      { id := "c", input_mapping := [("operation", .str "build")] } [] boomExec
      "docker build -f Dockerfile -t latest ." "boom" rfl rfl
  · exact c3_executor_exception_contract.2.2.1 "terraform"
      { id := "t", input_mapping := [("operation", .str "init")] } [] boomExec
      "terraform init" "boom" rfl rfl rfl

/-- Claim C6 counterexample: an IaC invocation with truthy workspace and
the recognized operation "plan" makes only ONE executor call when the
workspace-select invocation raises — the main command never runs and no
NodeResult is produced (the exception propagates). -/
theorem c6_workspace_raise_single_call :
    (terraformCall "terraform" tfNodePlanWs [] boomExec).calls.length = 1 ∧
    (terraformCall "terraform" tfNodePlanWs [] boomExec).result = .error "boom" := ⟨rfl, rfl⟩

/-- Claim C6 (amended): for every IaC invocation with a truthy workspace
parameter and a recognized operation whose two executor invocations both
return CommandResults (neither raises), exactly two executor calls are
made — first "{binary} workspace select {workspace}", then the main
operation's command — and the returned NodeResult reports
tool_calls_used = 2. -/
theorem c6_workspace_two_calls :
    ∀ (bin : String) (node : ComputeNode) (ctx : Ctx) (exec : String → ExecOutcome)
      (cmd : String) (r1 r2 : CommandResult),
      pyTruthy (ctxGet node.input_mapping "workspace" Value.none) = true →
      exec (bin ++ " workspace select " ++
        pyStr (ctxGet node.input_mapping "workspace" Value.none)) = .result r1 →
      tfCmd bin (ctxGet node.input_mapping "operation" (.str "plan"))
        (ctxGet node.input_mapping "auto_approve" (.bool false)) = Option.some cmd →
      exec cmd = .result r2 →
      (terraformCall bin node ctx exec).calls =
        [bin ++ " workspace select " ++
          pyStr (ctxGet node.input_mapping "workspace" Value.none), cmd] ∧
      ∃ nr, (terraformCall bin node ctx exec).result = .ok nr ∧ nr.tool_calls_used = 2 := by
  intro bin node ctx exec cmd r1 r2 hws hpre hcmd hexec
  constructor
  · simp [terraformCall, terraformMain, hws, hpre, hcmd, hexec]
  · simp only [terraformCall, terraformMain, hws, hpre, hcmd, hexec]
    exact ⟨_, rfl, rfl⟩

/-- Witness for C6 at the concrete workspace node from the repository's
tests: two calls, workspace select first, then the plan command. -/
theorem c6_workspace_two_calls_witness :
    (terraformCall "terraform" tfNodePlanWs [] okExec).calls =
      ["terraform workspace select production", "terraform plan -out=tfplan"] ∧
    ∃ nr, (terraformCall "terraform" tfNodePlanWs [] okExec).result = .ok nr ∧
      nr.tool_calls_used = 2 :=
  c6_workspace_two_calls "terraform" tfNodePlanWs [] okExec "terraform plan -out=tfplan"
    { success := true, output := .str "done" } { success := true, output := .str "done" }
    rfl rfl rfl rfl

/-- Claim C10: whenever the executor returns a CommandResult for the main
command — success or failure alike — both handlers write the output object
(carrying the success flag) into the context under output_key, or under
the node id when output_key is absent, before returning. -/
theorem c10_context_written_on_command_result :
    (∀ node : ComputeNode, node.output_key = Option.none → outKey node = node.id) ∧
    (∀ (rt : String) (node : ComputeNode) (ctx : Ctx) (exec : String → ExecOutcome)
        (cmd : String) (r : CommandResult),
      containerCmd rt node = Option.some cmd →
      exec cmd = .result r →
      (containerCall rt node ctx exec).ctx =
        ctxSet ctx (outKey node)
          (.dict [("operation", ctxGet node.input_mapping "operation" (.str "build")),
                  ("success", .bool r.success), ("output", r.output)])) ∧
    (∀ (bin : String) (node : ComputeNode) (ctx : Ctx) (exec : String → ExecOutcome)
        (cmd : String) (r : CommandResult),
      pyTruthy (ctxGet node.input_mapping "workspace" Value.none) = false →
      tfCmd bin (ctxGet node.input_mapping "operation" (.str "plan"))
        (ctxGet node.input_mapping "auto_approve" (.bool false)) = Option.some cmd →
      exec cmd = .result r →
      (terraformCall bin node ctx exec).ctx =
        ctxSet ctx (outKey node)
          (.dict [("operation", ctxGet node.input_mapping "operation" (.str "plan")),
                  ("workspace", ctxGet node.input_mapping "workspace" Value.none),
                  ("success", .bool r.success), ("output", r.output)])) ∧
    (∀ (bin : String) (node : ComputeNode) (ctx : Ctx) (exec : String → ExecOutcome)
        (cmd : String) (r1 r : CommandResult),
      pyTruthy (ctxGet node.input_mapping "workspace" Value.none) = true →
      exec (bin ++ " workspace select " ++
        pyStr (ctxGet node.input_mapping "workspace" Value.none)) = .result r1 →
      tfCmd bin (ctxGet node.input_mapping "operation" (.str "plan"))
        (ctxGet node.input_mapping "auto_approve" (.bool false)) = Option.some cmd →
      exec cmd = .result r →
      (terraformCall bin node ctx exec).ctx =
        ctxSet ctx (outKey node)
          (.dict [("operation", ctxGet node.input_mapping "operation" (.str "plan")),
                  ("workspace", ctxGet node.input_mapping "workspace" Value.none),
                  ("success", .bool r.success), ("output", r.output)])) := by
  refine ⟨?_, ?_, ?_, ?_⟩
  · intro node h
    simp [outKey, h]
  · intro rt node ctx exec cmd r hcmd hexec
    simp [containerCall, hcmd, hexec]
  · intro bin node ctx exec cmd r hws hcmd hexec
    simp [terraformCall, terraformMain, hws, hcmd, hexec]
  · intro bin node ctx exec cmd r1 r hws hpre hcmd hexec
    simp [terraformCall, terraformMain, hws, hpre, hcmd, hexec]

/-- Witness for C10: a failing main command (ExecutionFailure) still
writes the output object, with success=False, under the node id. -/
theorem c10_context_written_on_command_result_witness :
    (containerCall "docker" { id := "b", input_mapping := [("operation", .str "build")] }
      [] failExec).ctx =
      [("b", .dict [("operation", .str "build"), ("success", .bool false),
        ("output", Value.none)])] := by
  have h := c10_context_written_on_command_result.2.1 "docker"
    { id := "b", input_mapping := [("operation", .str "build")] } [] failExec
    "docker build -f Dockerfile -t latest ."
    { success := false, error := Option.some "failed" } rfl rfl
  simpa [ctxSet, outKey, ctxGet, dictLookup] using h

/-! ## Config-store theorems (claim C7) -/

/-- Claim C7 counterexample: on an orchestrator with neither a reachable
config service nor the legacy safety_config attribute, the service store
is unavailable and yet nothing is written anywhere — the settings dict is
not written onto a legacy attribute, refuting the claim's unconditional
"if and only if the service store is unavailable". -/
theorem c7_no_attribute_no_write :
    configure_deployment_safety
      { configService := Option.none, safety_config := Option.none } true true true Option.none =
      { configService := Option.none, safety_config := Option.none } := rfl

/-- Claim C7 (amended): each configure_deployment_safety call writes to at
most one backend — when the service store accepts the write the legacy
attribute is never touched, even if it exists; when the service store is
unavailable AND the orchestrator has the legacy safety_config attribute,
the full merged default-plus-override settings dict is written under its
"deployment" key; when the service store is unavailable and the attribute
is missing, nothing is written at all. -/
theorem c7_config_store_exactly_one_backend :
    ∀ (o : Orchestrator) (rap rbd er : Bool) (pe : Option (List String)),
      (∀ store, o.configService = Option.some store →
        (configure_deployment_safety o rap rbd er pe).safety_config = o.safety_config ∧
        (configure_deployment_safety o rap rbd er pe).configService =
          Option.some (ctxSet store "deployment_safety" (deploymentSafetyConfig rap rbd er pe))) ∧
      (o.configService = Option.none →
        (configure_deployment_safety o rap rbd er pe).configService = Option.none ∧
        (∀ legacy, o.safety_config = Option.some legacy →
          (configure_deployment_safety o rap rbd er pe).safety_config =
            Option.some (ctxSet legacy "deployment" (deploymentSafetyConfig rap rbd er pe))) ∧
        (o.safety_config = Option.none →
          configure_deployment_safety o rap rbd er pe = o)) := by
  intro o rap rbd er pe
  constructor
  · intro store hs
    simp [configure_deployment_safety, store_capability_config, hs]
  · intro hs
    refine ⟨?_, ?_, ?_⟩
    · rcases hl : o.safety_config with _ | legacy <;>
        simp [configure_deployment_safety, store_capability_config, hs, hl]
    · intro legacy hl
      simp [configure_deployment_safety, store_capability_config, hs, hl]
    · intro hl
      simp [configure_deployment_safety, store_capability_config, hs, hl]

/-- Witness for C7, mirroring the repository's own tests: a legacy
orchestrator (no service, attribute present) receives the full merged
settings dict under safety_config["deployment"], and a service-backed
orchestrator keeps its legacy attribute untouched. -/
theorem c7_config_store_exactly_one_backend_witness :
    (configure_deployment_safety
      { configService := Option.none, safety_config := Option.some [] }
      true false true Option.none).safety_config =
      Option.some [("deployment", deploymentSafetyConfig true false true Option.none)] ∧
    (configure_deployment_safety
      { configService := Option.some [], safety_config := Option.some [("keep", Value.none)] }
      true true true Option.none).safety_config = Option.some [("keep", Value.none)] := by
  constructor
  · have h := ((c7_config_store_exactly_one_backend
      { configService := Option.none, safety_config := Option.some [] }
      true false true Option.none).2 rfl).2.1 [] rfl
    simpa [ctxSet] using h
  · exact ((c7_config_store_exactly_one_backend
      { configService := Option.some [], safety_config := Option.some [("keep", Value.none)] }
      true true true Option.none).1 [] rfl).1

end VictorDevops
